import Mathlib

/-!
Verification of the secure-chat session and room coordination engine.

The model below is a shallow embedding of the socket server in
src/unnamed/part_001 (the core implementation; every handler is translated
line by line), of the sibling server variant in src/api/socket.js where the
two differ, and of the client-side envelope validator in
src/public/encryption.js.
-/

namespace SecureChat

/-! ## Envelope values

A JavaScript value sitting in an envelope field: a byte array, a string, or
any other value (object, number, boolean, ...). -/

inductive JsField
  | arr (bytes : List Nat)
  | str (s : String)
  | other
deriving DecidableEq

/-- An inbound envelope object: each of the three checked properties is
either absent (`none`) or holds some JavaScript value. -/
structure EnvelopeObj where
  encrypted : Option JsField
  iv : Option JsField
  algorithm : Option JsField
deriving DecidableEq

/-- The raw argument of the validators: `none` models `null`,
`undefined` or any non-object value; `some e` models an object. -/
abbrev EnvelopeInput := Option EnvelopeObj

/-- Server-side `validateEncryptedMessage` (src/unnamed/part_001 lines
20-31): requires the argument to be an object with the three fields
present, `algorithm === "AES-256-GCM"`, `iv` an array of length exactly 12,
and `encrypted` a non-empty array. There is no minimum-length check on
`encrypted`. -/
def validateEncryptedMessage (m : EnvelopeInput) : Bool :=
  match m with
  | none => false
  | some e =>
    e.encrypted.isSome && e.iv.isSome && e.algorithm.isSome &&
    (e.algorithm == some (JsField.str "AES-256-GCM")) &&
    (match e.iv with
     | some (JsField.arr xs) => xs.length == 12
     | _ => false) &&
    (match e.encrypted with
     | some (JsField.arr xs) => decide (0 < xs.length)
     | _ => false)

/-- Result type of the client-side validator: `{valid, error}` (the extra
informational fields of the success object are not modelled). -/
structure ValidationResult where
  valid : Bool
  error : Option String
deriving DecidableEq

/-- The fixed algorithm identifier of the client encryption layer
(`this.algorithm` in src/public/encryption.js line 10). -/
def clientAlgorithm : String := "AES-256-GCM"

/-- Client-side `SecureEncryption.validateEncryptedMessage`
(src/public/encryption.js lines 319-359), checks in source order:
non-object, missing field, wrong algorithm, bad IV, empty encrypted data,
and finally the 16-byte minimum on `encrypted`. -/
def clientValidateEncryptedMessage (m : EnvelopeInput) : ValidationResult :=
  match m with
  | none => { valid := false, error := some "Invalid message format" }
  | some e =>
    if e.encrypted.isNone then
      { valid := false, error := some ("Missing field: " ++ "encrypted") }
    else if e.iv.isNone then
      { valid := false, error := some ("Missing field: " ++ "iv") }
    else if e.algorithm.isNone then
      { valid := false, error := some ("Missing field: " ++ "algorithm") }
    else if e.algorithm != some (JsField.str clientAlgorithm) then
      { valid := false, error := some "Invalid algorithm" }
    else if !(match e.iv with
              | some (JsField.arr xs) => xs.length == 12
              | _ => false) then
      { valid := false, error := some "Invalid IV format" }
    else if !(match e.encrypted with
              | some (JsField.arr xs) => decide (0 < xs.length)
              | _ => false) then
      { valid := false, error := some "Invalid encrypted data" }
    else if (match e.encrypted with
             | some (JsField.arr xs) => decide (xs.length < 16)
             | _ => false) then
      { valid := false, error := some "Encrypted data too small" }
    else
      { valid := true, error := none }

/-- A fully typed envelope: `encrypted` and `iv` byte arrays and a string
algorithm tag. -/
def mkEnvelope (enc iv : List Nat) (alg : String) : EnvelopeInput :=
  some { encrypted := some (JsField.arr enc), iv := some (JsField.arr iv),
         algorithm := some (JsField.str alg) }

/-! ## Server state

The two in-memory registries of src/unnamed/part_001: `activeConnections`
(socket id to connection record) and `activeRooms` (room code to room
record). Socket ids are modelled as natural numbers handed out by a
counter, reflecting that the transport layer never reuses a live or past
socket id. Room codes and all client-supplied strings stay strings.
Timestamps (`Date.now()`) are naturals supplied as an explicit `now`
argument to each handler. -/

/-- A stored profile `{displayName, anonymousId}` (part_001 line 109). -/
structure Profile where
  displayName : String
  anonymousId : Nat
deriving DecidableEq

/-- One entry of `activeConnections` (part_001 lines 74-81). -/
structure Connection where
  anonymousId : Nat
  connectedAt : Nat
  lastActivity : Nat
  isAuthenticated : Bool
  rooms : Finset String
  profile : Option Profile
deriving DecidableEq

/-- One entry of `activeRooms` (part_001 lines 125 and 144). -/
structure Room where
  id : String
  participants : Finset Nat
  lastActivity : Nat
deriving DecidableEq

/-- The whole mutable server state: both registries plus the transport
counter that makes new socket ids fresh. -/
structure ServerState where
  conns : Nat → Option Connection
  rooms : String → Option Room
  nextConnId : Nat

/-- The state before any client connects: both maps empty. -/
def initState : ServerState :=
  { conns := fun _ => none, rooms := fun _ => none, nextConnId := 0 }

/-! ## Outbound events

`socket.emit` goes to the sending socket only; `socket.to(roomId).emit`
goes to every socket joined to the transport room except the sender. -/

/-- Addressing of an outbound emission. -/
inductive Target
  | toSender
  | toRoomOthers (roomId : String)
deriving DecidableEq

/-- Outbound event payloads (only the fields the server computes; the
random display truncations of ids are omitted). -/
inductive OutEvent
  | authenticated (success : Bool)
  | errorEvt (code : String)
  | profileSetupComplete (success : Bool) (profile : Profile)
  | profileSetupFailed (error : String)
  | roomCreated (success : Bool) (roomId : String) (participants : Nat)
  | roomJoined (success : Bool) (roomId : String) (participants : Nat)
  | userJoined (participants : Nat)
  | newMessage (messageId : String) (roomId : String) (sender : String)
      (encryptedPayload : EnvelopeInput) (timestamp : Nat)
  | messageDelivered (messageId : String) (delivered : Bool)
  | messageSendFailed (error : String) (messageId : String)
  | newFile (fileId : String) (roomId : String) (sender : String)
      (encryptedFileData : JsField) (metadataSize : Option Nat)
      (isEncrypted : Bool) (timestamp : Nat)
  | fileShared (fileId : String) (shared : Bool)
  | fileShareFailed (error : String) (fileId : Option String)
deriving DecidableEq

/-- The list of emissions a handler performs, in source order. -/
abbrev Emits := List (Target × OutEvent)

/-- Delivery semantics of a target, as socket.io implements it: the
own socket of the sender for `socket.emit`, and the members of the room other
than the sender for `socket.to(roomId).emit`. -/
def targetRecipients (s : ServerState) (senderId : Nat) :
    Target → Finset Nat
  | Target.toSender => {senderId}
  | Target.toRoomOthers rid =>
    match s.rooms rid with
    | some room => room.participants.erase senderId
    | none => ∅

/-- `connection.profile?.displayName || "Anonymous"` (part_001 lines 181
and 217). -/
def senderName (conn : Connection) : String :=
  match conn.profile with
  | some p => if p.displayName = "" then "Anonymous" else p.displayName
  | none => "Anonymous"

/-! ## Event handlers of src/unnamed/part_001 -/

/-- The `connection` callback (part_001 lines 70-81): register a fresh
socket id with an unauthenticated empty record. The random
`anonymousId` is taken as a parameter. Returns the assigned socket id. -/
def connectHandler (s : ServerState) (anonId : Nat) (now : Nat) :
    ServerState × Nat :=
  let id := s.nextConnId
  ({ s with
      conns := Function.update s.conns id
        (some { anonymousId := anonId, connectedAt := now,
                lastActivity := now, isAuthenticated := false,
                rooms := ∅, profile := none }),
      nextConnId := id + 1 }, id)

/-- The `authenticate` handler (part_001 lines 84-96): if the socket has a
registry entry, mark it authenticated and refresh `lastActivity`; in
either case emit `authenticated` with `success: true`. -/
def authenticateHandler (s : ServerState) (senderId : Nat) (now : Nat) :
    ServerState × Emits :=
  let s' :=
    match s.conns senderId with
    | some conn =>
      let conn' := { conn with isAuthenticated := true, lastActivity := now }
      { s with conns := Function.update s.conns senderId (some conn') }
    | none => s
  (s', [(Target.toSender, OutEvent.authenticated true)])

/-- Model of JavaScript String.prototype.trim: strip leading and trailing
whitespace characters. -/
def jsTrim (s : String) : String :=
  String.mk (((s.data.dropWhile Char.isWhitespace).reverse.dropWhile
    Char.isWhitespace).reverse)

/-- The `setupProfile` handler (part_001 lines 99-116). The argument
models `data.displayName` (`none` when the property is absent). The check
`!displayName || displayName.length > 50` runs on the trimmed name. -/
def setupProfileHandler (s : ServerState) (senderId : Nat)
    (displayNameField : Option String) (now : Nat) : ServerState × Emits :=
  match s.conns senderId with
  | none => (s, [(Target.toSender, OutEvent.errorEvt "NOT_AUTHENTICATED")])
  | some conn =>
    if !conn.isAuthenticated then
      (s, [(Target.toSender, OutEvent.errorEvt "NOT_AUTHENTICATED")])
    else
      match displayNameField with
      | none =>
        (s, [(Target.toSender,
              OutEvent.profileSetupFailed "Invalid display name")])
      | some rawName =>
        let displayName := jsTrim rawName
        if displayName = "" ∨ 50 < displayName.length then
          (s, [(Target.toSender,
                OutEvent.profileSetupFailed "Invalid display name")])
        else
          let profile : Profile :=
            { displayName := displayName, anonymousId := conn.anonymousId }
          let conn' :=
            { conn with profile := some profile, lastActivity := now }
          ({ s with conns := Function.update s.conns senderId (some conn') },
           [(Target.toSender,
             OutEvent.profileSetupComplete true profile)])

/-- The `createRoom` handler (part_001 lines 119-134). The random room
code is taken as a parameter; as in the source, a colliding code simply
overwrites the old room (`activeRooms.set`). -/
def createRoomHandler (s : ServerState) (senderId : Nat)
    (newRoomId : String) (now : Nat) : ServerState × Emits :=
  match s.conns senderId with
  | none => (s, [(Target.toSender, OutEvent.errorEvt "NOT_AUTHENTICATED")])
  | some conn =>
    if !conn.isAuthenticated then
      (s, [(Target.toSender, OutEvent.errorEvt "NOT_AUTHENTICATED")])
    else
      let room : Room :=
        { id := newRoomId, participants := {senderId}, lastActivity := now }
      let conn' := { conn with rooms := insert newRoomId conn.rooms }
      ({ s with
          rooms := Function.update s.rooms newRoomId (some room),
          conns := Function.update s.conns senderId (some conn') },
       [(Target.toSender, OutEvent.roomCreated true newRoomId 1)])

/-- The `joinRoom` handler (part_001 lines 137-161): authenticated only;
a missing room code is created implicitly with empty participants, then
the sender is added on both sides and both activity stamps refresh. -/
def joinRoomHandler (s : ServerState) (senderId : Nat) (roomCode : String)
    (now : Nat) : ServerState × Emits :=
  match s.conns senderId with
  | none => (s, [(Target.toSender, OutEvent.errorEvt "NOT_AUTHENTICATED")])
  | some conn =>
    if !conn.isAuthenticated then
      (s, [(Target.toSender, OutEvent.errorEvt "NOT_AUTHENTICATED")])
    else
      let room0 : Room :=
        match s.rooms roomCode with
        | some r => r
        | none => { id := roomCode, participants := ∅, lastActivity := now }
      let room : Room :=
        { room0 with participants := insert senderId room0.participants,
                     lastActivity := now }
      let conn' :=
        { conn with rooms := insert roomCode conn.rooms, lastActivity := now }
      ({ s with
          rooms := Function.update s.rooms roomCode (some room),
          conns := Function.update s.conns senderId (some conn') },
       [(Target.toSender,
         OutEvent.roomJoined true roomCode room.participants.card),
        (Target.toRoomOthers roomCode,
         OutEvent.userJoined room.participants.card)])

/-- The `sendMessage` handler (part_001 lines 164-191): silently drops the
event when the sender is unknown, unauthenticated, or not a participant of
the named room; rejects an invalid envelope to the sender only; otherwise
refreshes both activity stamps, relays `newMessage` to the other room
members and acknowledges `messageDelivered` to the sender. -/
def sendMessageHandler (s : ServerState) (senderId : Nat) (roomId : String)
    (encryptedMessage : EnvelopeInput) (messageId : String) (now : Nat) :
    ServerState × Emits :=
  match s.conns senderId with
  | none => (s, [])
  | some conn =>
    if !conn.isAuthenticated then (s, [])
    else
      match s.rooms roomId with
      | none => (s, [])
      | some room =>
        if senderId ∉ room.participants then (s, [])
        else if !validateEncryptedMessage encryptedMessage then
          (s, [(Target.toSender,
                OutEvent.messageSendFailed "Invalid message" messageId)])
        else
          let room' := { room with lastActivity := now }
          let conn' := { conn with lastActivity := now }
          ({ s with
              rooms := Function.update s.rooms roomId (some room'),
              conns := Function.update s.conns senderId (some conn') },
           [(Target.toRoomOthers roomId,
             OutEvent.newMessage messageId roomId (senderName conn)
               encryptedMessage now),
            (Target.toSender, OutEvent.messageDelivered messageId true)])

/-- Metadata of a shared file; `size` is `none` when the object carries no
numeric `size` property. Only the field the server reads is modelled. -/
structure FileMetadata where
  size : Option Nat
deriving DecidableEq

/-- JavaScript truthiness of a field value (arrays and objects are truthy,
the empty string is falsy). -/
def jsTruthy : JsField → Bool
  | JsField.arr _ => true
  | JsField.str s => s ≠ ""
  | JsField.other => true

/-- `fileMetadata.size > 10 * 1024 * 1024` (part_001 line 207): when
`size` is absent the comparison is `undefined > cap`, which is false. -/
def sizeExceedsCap (m : FileMetadata) : Bool :=
  match m.size with
  | some n => decide (10 * 1024 * 1024 < n)
  | none => false

/-- The `shareFile` handler (part_001 lines 194-228): authenticated and a
room participant; `encryptedFile`, `fileMetadata`, `fileId` must all be
truthy; the size cap rejects only a present numeric size above 10 MiB;
otherwise the file envelope is relayed to the other room members and
`fileShared` acknowledged to the sender. -/
def shareFileHandler (s : ServerState) (senderId : Nat) (roomId : String)
    (encryptedFile : Option JsField) (fileMetadata : Option FileMetadata)
    (fileId : Option String) (now : Nat) : ServerState × Emits :=
  match s.conns senderId with
  | none => (s, [(Target.toSender, OutEvent.errorEvt "NOT_AUTHENTICATED")])
  | some conn =>
    if !conn.isAuthenticated then
      (s, [(Target.toSender, OutEvent.errorEvt "NOT_AUTHENTICATED")])
    else
      match s.rooms roomId with
      | none =>
        (s, [(Target.toSender,
              OutEvent.fileShareFailed "Not a member" fileId)])
      | some room =>
        if senderId ∉ room.participants then
          (s, [(Target.toSender,
                OutEvent.fileShareFailed "Not a member" fileId)])
        else if !(encryptedFile.elim false jsTruthy) ∨ fileMetadata.isNone ∨
                !(fileId.elim false (fun fid => fid ≠ "")) then
          (s, [(Target.toSender,
                OutEvent.fileShareFailed "Missing fields" fileId)])
        else
          match encryptedFile, fileMetadata, fileId with
          | some ef, some meta, some fid =>
            if sizeExceedsCap meta then
              (s, [(Target.toSender,
                    OutEvent.fileShareFailed "File too large (max 10MB)"
                      (some fid))])
            else
              let room' := { room with lastActivity := now }
              let conn' := { conn with lastActivity := now }
              ({ s with
                  rooms := Function.update s.rooms roomId (some room'),
                  conns := Function.update s.conns senderId (some conn') },
               [(Target.toRoomOthers roomId,
                 OutEvent.newFile fid roomId (senderName conn) ef meta.size
                   true now),
                (Target.toSender, OutEvent.fileShared fid true)])
          | _, _, _ =>
            (s, [(Target.toSender,
                  OutEvent.fileShareFailed "Missing fields" fileId)])

/-- The `disconnect` handler of src/unnamed/part_001 (lines 236-239):
deletes the connection entry and nothing else — room participant sets are
left untouched. -/
def disconnectHandler (s : ServerState) (senderId : Nat) : ServerState :=
  { s with conns := Function.update s.conns senderId none }

/-- The `disconnect` handler of the sibling server src/api/socket.js
(lines 159-170), state effect only (the `userLeft` broadcast to surviving
members is not modelled): deletes the connection, removes the socket from
the participants of every room, and deletes any room that becomes empty. -/
def disconnectHandlerApi (s : ServerState) (senderId : Nat) : ServerState :=
  { s with
      conns := Function.update s.conns senderId none,
      rooms := fun rid =>
        match s.rooms rid with
        | none => none
        | some room =>
          let ps := room.participants.erase senderId
          if ps = ∅ then none else some { room with participants := ps } }

/-- `runCleanup` (part_001 lines 33-57): drop every connection idle
strictly more than 30 minutes and every room that is empty or idle
strictly more than 60 minutes. Deleting entries while iterating a
JavaScript `Map` visits each remaining entry exactly once, so the sweep is
a filter of each registry. Natural subtraction agrees with the source
comparison: when `lastActivity` exceeds `now` both sides are below the
positive threshold. -/
def runCleanup (s : ServerState) (now : Nat) : ServerState :=
  { s with
      conns := fun id =>
        match s.conns id with
        | some conn =>
          if 30 * 60 * 1000 < now - conn.lastActivity then none
          else some conn
        | none => none,
      rooms := fun rid =>
        match s.rooms rid with
        | some room =>
          if room.participants = ∅ ∨ 60 * 60 * 1000 < now - room.lastActivity
          then none else some room
        | none => none }

/-! ## Membership traces

The events that mutate registry membership, as named by the spec
invariant: join and disconnect, plus the connect and authenticate steps a
join requires. There is no standalone leave event in the source; the only
departure path is disconnect. -/

/-- One inbound membership-relevant event. `connect` assigns the next
fresh socket id itself; the other events name a sender socket id. -/
inductive MembershipEvent
  | connect (anonId : Nat) (now : Nat)
  | authenticate (senderId : Nat) (now : Nat)
  | joinRoom (senderId : Nat) (roomCode : String) (now : Nat)
  | disconnect (senderId : Nat)

/-- State effect of one membership event. -/
def stepMembership (s : ServerState) : MembershipEvent → ServerState
  | MembershipEvent.connect anonId now => (connectHandler s anonId now).1
  | MembershipEvent.authenticate senderId now =>
    (authenticateHandler s senderId now).1
  | MembershipEvent.joinRoom senderId code now =>
    (joinRoomHandler s senderId code now).1
  | MembershipEvent.disconnect senderId => disconnectHandler s senderId

/-- The state after a whole trace of membership events, started from the
empty registries. -/
def runMembership (es : List MembershipEvent) : ServerState :=
  es.foldl stepMembership initState

/-- The spec invariant: the two registries agree on membership — a room
code is in the `rooms` set of a registered connection iff the socket id of
that connection is in the `participants` set of the registered room. -/
def registriesConsistent (s : ServerState) : Prop :=
  ∀ id conn, s.conns id = some conn →
    ∀ rid room, s.rooms rid = some room →
      (rid ∈ conn.rooms ↔ id ∈ room.participants)

/-- The inductive invariant of membership traces: every registered socket
id and every id recorded in a participants set is below the transport
counter (so fresh ids cannot collide with stale entries), every room code
in the `rooms` set of a connection names a registered room, and the two
registries agree on membership. -/
def MembershipInv (s : ServerState) : Prop :=
  (∀ id conn, s.conns id = some conn → id < s.nextConnId) ∧
  (∀ rid room, s.rooms rid = some room →
      ∀ p ∈ room.participants, p < s.nextConnId) ∧
  (∀ id conn, s.conns id = some conn →
      ∀ rid ∈ conn.rooms, (s.rooms rid).isSome = true) ∧
  registriesConsistent s

lemma initState_membershipInv : MembershipInv initState := by
  refine ⟨?_, ?_, ?_, ?_⟩
  · intro id conn h; simp [initState] at h
  · intro rid room h; simp [initState] at h
  · intro id conn h; simp [initState] at h
  · intro id conn h; simp [initState] at h

lemma stepMembership_inv (s : ServerState) (e : MembershipEvent)
    (h : MembershipInv s) : MembershipInv (stepMembership s e) := by
  obtain ⟨hb1, hb2, hk, hc⟩ := h
  cases e with
  | connect anonId now =>
    refine ⟨?_, ?_, ?_, ?_⟩
    · intro id conn hid
      simp only [stepMembership, connectHandler, Function.update_apply] at hid ⊢
      by_cases hcase : id = s.nextConnId
      · omega
      · simp only [hcase, if_false] at hid
        exact Nat.lt_succ_of_lt (hb1 id conn hid)
    · intro rid room hr p hp
      simp only [stepMembership, connectHandler] at hr ⊢
      exact Nat.lt_succ_of_lt (hb2 rid room hr p hp)
    · intro id conn hid rid hrid
      simp only [stepMembership, connectHandler, Function.update_apply] at hid ⊢
      by_cases hcase : id = s.nextConnId
      · simp only [hcase, eq_self_iff_true, if_true, Option.some.injEq] at hid
        rw [← hid] at hrid
        simp at hrid
      · simp only [hcase, if_false] at hid
        exact hk id conn hid rid hrid
    · intro id conn hid rid room hr
      simp only [stepMembership, connectHandler, Function.update_apply] at hid hr ⊢
      by_cases hcase : id = s.nextConnId
      · simp only [hcase, eq_self_iff_true, if_true, Option.some.injEq] at hid
        rw [← hid]
        simp only [Finset.not_mem_empty, false_iff]
        intro hmem
        have := hb2 rid room hr _ hmem
        omega
      · simp only [hcase, if_false] at hid
        exact hc id conn hid rid room hr
  | authenticate senderId now =>
    cases hsc : s.conns senderId with
    | none =>
      simp only [stepMembership, authenticateHandler, hsc]
      exact ⟨hb1, hb2, hk, hc⟩
    | some conn =>
      simp only [stepMembership, authenticateHandler, hsc]
      refine ⟨?_, ?_, ?_, ?_⟩
      · intro id c hid
        simp only [Function.update_apply] at hid
        by_cases hcase : id = senderId
        · subst hcase; exact hb1 id conn hsc
        · simp only [hcase, if_false] at hid
          exact hb1 id c hid
      · intro rid room hr p hp
        exact hb2 rid room hr p hp
      · intro id c hid rid hrid
        simp only [Function.update_apply] at hid
        by_cases hcase : id = senderId
        · simp only [hcase, eq_self_iff_true, if_true, Option.some.injEq] at hid
          rw [← hid] at hrid
          exact hk senderId conn hsc rid hrid
        · simp only [hcase, if_false] at hid
          exact hk id c hid rid hrid
      · intro id c hid rid room hr
        simp only [Function.update_apply] at hid
        by_cases hcase : id = senderId
        · simp only [hcase, eq_self_iff_true, if_true, Option.some.injEq] at hid
          subst hcase
          rw [← hid]
          exact hc id conn hsc rid room hr
        · simp only [hcase, if_false] at hid
          exact hc id c hid rid room hr
  | joinRoom senderId code now =>
    cases hsc : s.conns senderId with
    | none =>
      simp only [stepMembership, joinRoomHandler, hsc]
      exact ⟨hb1, hb2, hk, hc⟩
    | some conn =>
      cases hauth : conn.isAuthenticated with
      | false =>
        simp only [stepMembership, joinRoomHandler, hsc, hauth,
          Bool.not_false, if_pos]
        exact ⟨hb1, hb2, hk, hc⟩
      | true =>
        have hsb : senderId < s.nextConnId := hb1 senderId conn hsc
        have hps0 : ∀ p, p ∈ (match s.rooms code with
            | some r => r
            | none =>
              { id := code, participants := ∅,
                lastActivity := now : Room }).participants →
            p < s.nextConnId := by
          cases hr0 : s.rooms code with
          | none => intro p hp; simp at hp
          | some r => intro p hp; exact hb2 code r hr0 p hp
        simp only [stepMembership, joinRoomHandler, hsc, hauth,
          Bool.not_true, Bool.false_eq_true, if_false]
        refine ⟨?_, ?_, ?_, ?_⟩
        · intro id c hid
          simp only [Function.update_apply] at hid
          by_cases hcase : id = senderId
          · subst hcase; exact hsb
          · simp only [hcase, if_false] at hid
            exact hb1 id c hid
        · intro rid room hr p hp
          simp only [Function.update_apply] at hr
          by_cases hcase : rid = code
          · simp only [hcase, eq_self_iff_true, if_true, Option.some.injEq] at hr
            rw [← hr] at hp
            simp only [Finset.mem_insert] at hp
            rcases hp with hp | hp
            · subst hp; exact hsb
            · exact hps0 p hp
          · simp only [hcase, if_false] at hr
            exact hb2 rid room hr p hp
        · intro id c hid rid hrid
          simp only [Function.update_apply] at hid ⊢
          by_cases hrcase : rid = code
          · simp [hrcase]
          · simp only [hrcase, if_false]
            by_cases hcase : id = senderId
            · simp only [hcase, eq_self_iff_true, if_true, Option.some.injEq] at hid
              rw [← hid] at hrid
              simp only [Finset.mem_insert] at hrid
              rcases hrid with hrid | hrid
              · exact absurd hrid hrcase
              · exact hk senderId conn hsc rid hrid
            · simp only [hcase, if_false] at hid
              exact hk id c hid rid hrid
        · intro id c hid rid room hr
          simp only [Function.update_apply] at hid hr
          by_cases hcase : id = senderId
          · subst hcase
            simp only [eq_self_iff_true, if_true, Option.some.injEq] at hid
            rw [← hid]
            by_cases hrcase : rid = code
            · subst hrcase
              simp only [eq_self_iff_true, if_true, Option.some.injEq] at hr
              rw [← hr]
              simp
            · simp only [hrcase, if_false] at hr
              simp only [Finset.mem_insert]
              have := hc _ conn hsc rid room hr
              constructor
              · intro hx
                rcases hx with hx | hx
                · exact absurd hx hrcase
                · exact this.mp hx
              · intro hx; exact Or.inr (this.mpr hx)
          · simp only [hcase, if_false] at hid
            by_cases hrcase : rid = code
            · subst hrcase
              simp only [eq_self_iff_true, if_true, Option.some.injEq] at hr
              rw [← hr]
              simp only [Finset.mem_insert]
              cases hr0 : s.rooms rid with
              | none =>
                simp only [hr0]
                constructor
                · intro hx
                  have := hk id c hid rid hx
                  rw [hr0] at this
                  simp at this
                · intro hx
                  rcases hx with hx | hx
                  · exact absurd hx hcase
                  · simp at hx
              | some r =>
                simp only [hr0]
                have := hc id c hid rid r hr0
                constructor
                · intro hx; exact Or.inr (this.mp hx)
                · intro hx
                  rcases hx with hx | hx
                  · exact absurd hx hcase
                  · exact this.mpr hx
            · simp only [hrcase, if_false] at hr
              exact hc id c hid rid room hr
  | disconnect senderId =>
    refine ⟨?_, ?_, ?_, ?_⟩
    · intro id c hid
      simp only [stepMembership, disconnectHandler, Function.update_apply] at hid ⊢
      by_cases hcase : id = senderId
      · simp [hcase] at hid
      · simp only [hcase, if_false] at hid
        exact hb1 id c hid
    · intro rid room hr p hp
      simp only [stepMembership, disconnectHandler] at hr ⊢
      exact hb2 rid room hr p hp
    · intro id c hid rid hrid
      simp only [stepMembership, disconnectHandler, Function.update_apply] at hid ⊢
      by_cases hcase : id = senderId
      · simp [hcase] at hid
      · simp only [hcase, if_false] at hid
        exact hk id c hid rid hrid
    · intro id c hid rid room hr
      simp only [stepMembership, disconnectHandler, Function.update_apply] at hid hr ⊢
      by_cases hcase : id = senderId
      · simp [hcase] at hid
      · simp only [hcase, if_false] at hid
        exact hc id c hid rid room hr

lemma runMembership_inv (es : List MembershipEvent) :
    MembershipInv (runMembership es) := by
  suffices h : ∀ s, MembershipInv s → MembershipInv (es.foldl stepMembership s) by
    exact h initState initState_membershipInv
  induction es with
  | nil => intro s hs; exact hs
  | cons e es ih =>
    intro s hs
    exact ih (stepMembership s e) (stepMembership_inv s e hs)

/-! ## Claim theorems -/

lemma isSome_of_not_isNone {α : Type} {o : Option α}
    (h : ¬(o.isNone = true)) : o.isSome = true := by
  cases o
  · exact absurd rfl h
  · rfl

lemma bool_true_of_not_bang {b : Bool} (h : ¬((!b) = true)) : b = true := by
  cases b
  · exact absurd rfl h
  · rfl

/-- C1: after any sequence of join and disconnect events (together with
the connect and authenticate steps a join requires), the two registries
are mutually consistent: a room code is in the `rooms` set of a registered
connection iff the socket id of that connection is in the `participants`
set of the registered room. -/
theorem registries_mutually_consistent (es : List MembershipEvent) :
    registriesConsistent (runMembership es) :=
  (runMembership_inv es).2.2.2

/-- The trace in which socket 0 connects, authenticates, joins room
"ROOM1" as its sole participant, and disconnects. -/
def soleDisconnectTrace : List MembershipEvent :=
  [MembershipEvent.connect 7 0, MembershipEvent.authenticate 0 1,
   MembershipEvent.joinRoom 0 "ROOM1" 2, MembershipEvent.disconnect 0]

/-- C2 (divergence witness): in src/unnamed/part_001 the disconnect of a
sole participant of a room does NOT delete the room — `disconnect` only
deletes the connection entry, so "ROOM1" survives with the stale id 0 in
its participants, and a later `joinRoom` by a fresh socket rejoins the
stale room and reports 2 participants instead of creating a brand-new
room with 1. The sibling server src/api/socket.js does delete the room
immediately on the same input, which is what the spec describes. -/
theorem disconnect_leaves_sole_room_behind :
    ((runMembership soleDisconnectTrace).conns 0 = none) ∧
    ((runMembership soleDisconnectTrace).rooms "ROOM1" =
      some { id := "ROOM1", participants := {0}, lastActivity := 2 }) ∧
    ((joinRoomHandler (runMembership (soleDisconnectTrace ++
        [MembershipEvent.connect 8 3, MembershipEvent.authenticate 1 4]))
        1 "ROOM1" 5).2 =
      [(Target.toSender, OutEvent.roomJoined true "ROOM1" 2),
       (Target.toRoomOthers "ROOM1", OutEvent.userJoined 2)]) ∧
    ((disconnectHandlerApi (runMembership [MembershipEvent.connect 7 0,
        MembershipEvent.authenticate 0 1,
        MembershipEvent.joinRoom 0 "ROOM1" 2]) 0).rooms "ROOM1" = none) := by
  refine ⟨?_, ?_, ?_, ?_⟩ <;> decide

/-- C3 (counterexample): the server-side envelope validator — the one
that gates message relay — accepts an envelope whose `encrypted` array has
only 15 bytes (with a 12-byte IV and the accepted algorithm tag), whereas
the claim says such an envelope is rejected. -/
theorem server_validator_accepts_short_ciphertext :
    validateEncryptedMessage
      (mkEnvelope (List.replicate 15 0) (List.replicate 12 0) "AES-256-GCM")
      = true := by decide

/-- C3 (amended): the server-side validator accepts a typed envelope iff
the IV has exactly 12 bytes and `encrypted` is non-empty — it has no
16-byte floor, so 15-byte ciphertext passes; the 16-byte floor exists only
in the client-side validator, which accepts iff the IV has 12 bytes and
`encrypted` at least 16; every envelope the client validator accepts the
server validator accepts too; and the boundary cases behave accordingly
(IV length 11 or 13 rejected everywhere, 16-byte ciphertext accepted). -/
theorem envelope_validator_amended :
    (∀ enc iv : List Nat,
      validateEncryptedMessage (mkEnvelope enc iv "AES-256-GCM")
        = (decide (iv.length = 12) && decide (0 < enc.length))) ∧
    (∀ enc iv : List Nat,
      (clientValidateEncryptedMessage (mkEnvelope enc iv "AES-256-GCM")).valid
        = (decide (iv.length = 12) && decide (16 ≤ enc.length))) ∧
    (∀ m : EnvelopeInput, (clientValidateEncryptedMessage m).valid = true →
      validateEncryptedMessage m = true) ∧
    (validateEncryptedMessage
      (mkEnvelope (List.replicate 15 0) (List.replicate 12 0) "AES-256-GCM")
      = true) ∧
    ((clientValidateEncryptedMessage
      (mkEnvelope (List.replicate 15 0) (List.replicate 12 0) "AES-256-GCM")).valid
      = false) ∧
    (validateEncryptedMessage
      (mkEnvelope (List.replicate 16 0) (List.replicate 12 0) "AES-256-GCM")
      = true) ∧
    ((clientValidateEncryptedMessage
      (mkEnvelope (List.replicate 16 0) (List.replicate 12 0) "AES-256-GCM")).valid
      = true) ∧
    (validateEncryptedMessage
      (mkEnvelope (List.replicate 16 0) (List.replicate 11 0) "AES-256-GCM")
      = false) ∧
    (validateEncryptedMessage
      (mkEnvelope (List.replicate 16 0) (List.replicate 13 0) "AES-256-GCM")
      = false) := by
  refine ⟨?_, ?_, ?_, by decide, by decide, by decide, by decide, by decide,
    by decide⟩
  · intro enc iv
    by_cases h : iv.length = 12 <;>
      simp [validateEncryptedMessage, mkEnvelope, h]
  · intro enc iv
    by_cases hiv : iv.length = 12
    · by_cases henc : 16 ≤ enc.length
      · have h0 : 0 < enc.length := by omega
        have h16 : ¬ enc.length < 16 := by omega
        simp [clientValidateEncryptedMessage, mkEnvelope, clientAlgorithm,
          hiv, henc, h0, h16]
      · by_cases h0 : 0 < enc.length
        · have h16 : enc.length < 16 := by omega
          simp [clientValidateEncryptedMessage, mkEnvelope, clientAlgorithm,
            hiv, henc, h0, h16]
        · simp [clientValidateEncryptedMessage, mkEnvelope, clientAlgorithm,
            hiv, henc, h0]
    · simp [clientValidateEncryptedMessage, mkEnvelope, clientAlgorithm, hiv]
  · intro m h
    cases m with
    | none => simp [clientValidateEncryptedMessage] at h
    | some e =>
      simp only [clientValidateEncryptedMessage] at h
      split_ifs at h with h1 h2 h3 h4 h5 h6 h7
      simp at h
      simp only [validateEncryptedMessage, Bool.and_eq_true]
      refine ⟨⟨⟨⟨⟨?_, ?_⟩, ?_⟩, ?_⟩, ?_⟩, ?_⟩
      · exact isSome_of_not_isNone h1
      · exact isSome_of_not_isNone h2
      · exact isSome_of_not_isNone h3
      · simp only [bne_iff_ne, ne_eq, not_not] at h4
        simp [h4, clientAlgorithm]
      · exact bool_true_of_not_bang h5
      · exact bool_true_of_not_bang h6

/-- Witness for the amended C3: the implication from client acceptance to
server acceptance, instantiated at a concrete well-formed envelope. -/
theorem envelope_validator_amended_witness :
    validateEncryptedMessage
      (mkEnvelope (List.replicate 16 1) (List.replicate 12 2) "AES-256-GCM")
      = true :=
  envelope_validator_amended.2.2.1
    (mkEnvelope (List.replicate 16 1) (List.replicate 12 2) "AES-256-GCM")
    (by decide)

/-- A trace that leaves sockets 0 and 1 authenticated and together in
room "R". -/
def twoInRoomTrace : List MembershipEvent :=
  [MembershipEvent.connect 7 0, MembershipEvent.authenticate 0 1,
   MembershipEvent.joinRoom 0 "R" 2, MembershipEvent.connect 8 3,
   MembershipEvent.authenticate 1 4, MembershipEvent.joinRoom 1 "R" 5]

/-- The state reached by `twoInRoomTrace`. -/
def twoInRoomState : ServerState := runMembership twoInRoomTrace

/-- The registry entry of socket 0 in `twoInRoomState`. -/
def connZero : Connection :=
  { anonymousId := 7, connectedAt := 0, lastActivity := 2,
    isAuthenticated := true, rooms := {"R"}, profile := none }

/-- The record of room "R" in `twoInRoomState` (socket 1 joined last, so
it heads the underlying participants list). -/
def roomR : Room := { id := "R", participants := {1, 0}, lastActivity := 5 }

/-- A well-formed envelope: 16 bytes of ciphertext, a 12-byte IV, the
accepted algorithm tag. -/
def validEnvelope : EnvelopeInput :=
  mkEnvelope (List.replicate 16 1) (List.replicate 12 2) "AES-256-GCM"

/-- C4: from an authenticated room participant with all fields present, a
shareFile whose metadata size is exactly 10*1024*1024 is relayed to the
other room members and acknowledged `fileShared` to the sender, while a
size of 10*1024*1024 + 1 is rejected to the sender with the
file-too-large error — the 10 MiB cap is inclusive. -/
theorem shareFile_size_cap_inclusive (s : ServerState) (id : Nat)
    (conn : Connection) (rid : String) (room : Room) (ef : JsField)
    (fid : String) (now : Nat)
    (hc : s.conns id = some conn) (hauth : conn.isAuthenticated = true)
    (hr : s.rooms rid = some room) (hm : id ∈ room.participants)
    (hef : jsTruthy ef = true) (hfid : fid ≠ "") :
    ((shareFileHandler s id rid (some ef)
        (some { size := some (10 * 1024 * 1024) }) (some fid) now).2 =
      [(Target.toRoomOthers rid,
        OutEvent.newFile fid rid (senderName conn) ef
          (some (10 * 1024 * 1024)) true now),
       (Target.toSender, OutEvent.fileShared fid true)]) ∧
    ((shareFileHandler s id rid (some ef)
        (some { size := some (10 * 1024 * 1024 + 1) }) (some fid) now).2 =
      [(Target.toSender,
        OutEvent.fileShareFailed "File too large (max 10MB)"
          (some fid))]) := by
  constructor <;>
    simp [shareFileHandler, hc, hauth, hr, hm, hef, hfid, sizeExceedsCap]

/-- Witness for C4: the boundary behaviour at a concrete reachable state
with two participants in room "R". -/
theorem shareFile_size_cap_inclusive_witness :
    ((shareFileHandler twoInRoomState 0 "R" (some (JsField.arr [1]))
        (some { size := some (10 * 1024 * 1024) }) (some "f1") 6).2 =
      [(Target.toRoomOthers "R",
        OutEvent.newFile "f1" "R" "Anonymous" (JsField.arr [1])
          (some (10 * 1024 * 1024)) true 6),
       (Target.toSender, OutEvent.fileShared "f1" true)]) ∧
    ((shareFileHandler twoInRoomState 0 "R" (some (JsField.arr [1]))
        (some { size := some (10 * 1024 * 1024 + 1) }) (some "f1") 6).2 =
      [(Target.toSender,
        OutEvent.fileShareFailed "File too large (max 10MB)"
          (some "f1"))]) := by
  have h := shareFile_size_cap_inclusive twoInRoomState 0 connZero "R" roomR
    (JsField.arr [1]) "f1" 6 rfl rfl rfl (by decide) rfl (by decide)
  exact ⟨h.1, h.2⟩

/-- C5: joinRoom by an authenticated connection naming an absent room
code does not fail — the room is created implicitly with the sender as
sole participant and the sender gets a successful roomJoined response. -/
theorem joinRoom_implicit_create (s : ServerState) (id : Nat)
    (conn : Connection) (code : String) (now : Nat)
    (hc : s.conns id = some conn) (hauth : conn.isAuthenticated = true)
    (habs : s.rooms code = none) :
    ((joinRoomHandler s id code now).1.rooms code =
      some { id := code, participants := {id}, lastActivity := now }) ∧
    ((joinRoomHandler s id code now).2 =
      [(Target.toSender, OutEvent.roomJoined true code 1),
       (Target.toRoomOthers code, OutEvent.userJoined 1)]) := by
  constructor <;>
    simp [joinRoomHandler, hc, hauth, habs, Function.update_apply]

/-- Witness for C5: socket 0, freshly connected and authenticated, joins
the absent code "NEWROOM". -/
theorem joinRoom_implicit_create_witness :
    ((joinRoomHandler (runMembership [MembershipEvent.connect 7 0,
        MembershipEvent.authenticate 0 1]) 0 "NEWROOM" 2).1.rooms "NEWROOM" =
      some { id := "NEWROOM", participants := {0}, lastActivity := 2 }) ∧
    ((joinRoomHandler (runMembership [MembershipEvent.connect 7 0,
        MembershipEvent.authenticate 0 1]) 0 "NEWROOM" 2).2 =
      [(Target.toSender, OutEvent.roomJoined true "NEWROOM" 1),
       (Target.toRoomOthers "NEWROOM", OutEvent.userJoined 1)]) :=
  joinRoom_implicit_create _ 0
    { anonymousId := 7, connectedAt := 0, lastActivity := 1,
      isAuthenticated := true, rooms := ∅, profile := none }
    "NEWROOM" 2 (by decide) rfl (by decide)

/-- C6: a valid sendMessage from an authenticated room participant emits
exactly the newMessage relay addressed to the other room members and the
messageDelivered acknowledgement addressed to the sender; the relay
recipients are the room participants minus the sender — never the sender
— and the acknowledgement recipients are exactly the sender. -/
theorem sendMessage_relay_excludes_sender (s : ServerState) (id : Nat)
    (conn : Connection) (rid : String) (room : Room) (msg : EnvelopeInput)
    (mid : String) (now : Nat)
    (hc : s.conns id = some conn) (hauth : conn.isAuthenticated = true)
    (hr : s.rooms rid = some room) (hm : id ∈ room.participants)
    (hv : validateEncryptedMessage msg = true) :
    ((sendMessageHandler s id rid msg mid now).2 =
      [(Target.toRoomOthers rid,
        OutEvent.newMessage mid rid (senderName conn) msg now),
       (Target.toSender, OutEvent.messageDelivered mid true)]) ∧
    (targetRecipients (sendMessageHandler s id rid msg mid now).1 id
        (Target.toRoomOthers rid) = room.participants.erase id) ∧
    (id ∉ targetRecipients (sendMessageHandler s id rid msg mid now).1 id
        (Target.toRoomOthers rid)) ∧
    (targetRecipients (sendMessageHandler s id rid msg mid now).1 id
        Target.toSender = {id}) := by
  refine ⟨?_, ?_, ?_, ?_⟩ <;>
    simp [sendMessageHandler, hc, hauth, hr, hm, hv, targetRecipients,
      Function.update_apply, Finset.not_mem_erase]

/-- Witness for C6: socket 0 sends a valid message to room "R" shared
with socket 1; the relay reaches exactly socket 1 and the acknowledgement
exactly socket 0. -/
theorem sendMessage_relay_excludes_sender_witness :
    ((sendMessageHandler twoInRoomState 0 "R" validEnvelope "m1" 6).2 =
      [(Target.toRoomOthers "R",
        OutEvent.newMessage "m1" "R" "Anonymous" validEnvelope 6),
       (Target.toSender, OutEvent.messageDelivered "m1" true)]) ∧
    (targetRecipients (sendMessageHandler twoInRoomState 0 "R"
        validEnvelope "m1" 6).1 0 (Target.toRoomOthers "R") = {1}) ∧
    (0 ∉ targetRecipients (sendMessageHandler twoInRoomState 0 "R"
        validEnvelope "m1" 6).1 0 (Target.toRoomOthers "R")) := by
  have h := sendMessage_relay_excludes_sender twoInRoomState 0 connZero "R"
    roomR validEnvelope "m1" 6 rfl rfl rfl (by decide) (by decide)
  refine ⟨h.1, ?_, h.2.2.1⟩
  rw [h.2.1]
  decide

/-- C7: one Reaper sweep removes a registered connection iff its idle
time strictly exceeds 30 minutes (kept byte-identical otherwise) and
removes a registered room iff its participants set is empty or its idle
time strictly exceeds 60 minutes; in particular a connection idle exactly
31 minutes is evicted and one idle exactly 29 minutes is retained. -/
theorem runCleanup_evicts_exactly_stale (s : ServerState) (now : Nat) :
    (∀ id conn, s.conns id = some conn →
      (runCleanup s now).conns id =
        (if 30 * 60 * 1000 < now - conn.lastActivity then none
         else some conn)) ∧
    (∀ rid room, s.rooms rid = some room →
      (runCleanup s now).rooms rid =
        (if room.participants = ∅ ∨ 60 * 60 * 1000 < now - room.lastActivity
         then none else some room)) ∧
    (∀ id conn, s.conns id = some conn →
      now = conn.lastActivity + 31 * 60 * 1000 →
      (runCleanup s now).conns id = none) ∧
    (∀ id conn, s.conns id = some conn →
      now = conn.lastActivity + 29 * 60 * 1000 →
      (runCleanup s now).conns id = some conn) := by
  refine ⟨?_, ?_, ?_, ?_⟩
  · intro id conn h
    simp [runCleanup, h]
  · intro rid room h
    simp [runCleanup, h]
  · intro id conn h hnow
    subst hnow
    simp only [runCleanup, h]
    rw [if_pos (by omega)]
  · intro id conn h hnow
    subst hnow
    simp only [runCleanup, h]
    rw [if_neg (by omega)]

/-- Connection idle since time 0 (31 minutes at sweep time 1860000). -/
def connIdle31 : Connection :=
  { anonymousId := 1, connectedAt := 0, lastActivity := 0,
    isAuthenticated := true, rooms := ∅, profile := none }

/-- Connection last active at time 120000 (29 minutes idle at sweep time
1860000). -/
def connIdle29 : Connection :=
  { anonymousId := 2, connectedAt := 0, lastActivity := 120000,
    isAuthenticated := true, rooms := ∅, profile := none }

/-- An empty room. -/
def roomEmpty : Room :=
  { id := "E", participants := ∅, lastActivity := 1860000 }

/-- An occupied room idle 31 minutes at sweep time 1860000 (below the
60 minute room threshold). -/
def roomOccupied : Room :=
  { id := "F", participants := {1}, lastActivity := 0 }

/-- A concrete state for exercising the Reaper: at sweep time 1860000
(31 minutes), socket 0 has been idle 31 minutes, socket 1 idle 29
minutes; room "E" is empty and room "F" holds socket 1. -/
def reaperDemoState : ServerState :=
  { conns := Function.update (Function.update (fun _ => none) 0
      (some connIdle31)) 1 (some connIdle29),
    rooms := Function.update (Function.update (fun _ => none) "E"
      (some roomEmpty)) "F" (some roomOccupied),
    nextConnId := 2 }

/-- Witness for C7 at a concrete sweep time: socket 0 idle 31 minutes is
evicted, socket 1 idle 29 minutes is retained; the empty room "E" is
removed, the occupied 31-minute-idle room "F" is retained. -/
theorem runCleanup_evicts_exactly_stale_witness :
    ((runCleanup reaperDemoState 1860000).conns 0 = none) ∧
    ((runCleanup reaperDemoState 1860000).conns 1 = some connIdle29) ∧
    ((runCleanup reaperDemoState 1860000).rooms "E" = none) ∧
    ((runCleanup reaperDemoState 1860000).rooms "F" =
      some roomOccupied) := by
  have h := runCleanup_evicts_exactly_stale reaperDemoState 1860000
  refine ⟨?_, ?_, ?_, ?_⟩
  · exact h.2.2.1 0 connIdle31 rfl (by norm_num [connIdle31])
  · exact (h.1 1 connIdle29 rfl).trans (by norm_num [connIdle29])
  · exact (h.2.1 "E" roomEmpty rfl).trans (by simp [roomEmpty])
  · exact (h.2.1 "F" roomOccupied rfl).trans (by
      rw [if_neg]
      push_neg
      refine ⟨?_, by norm_num [roomOccupied]⟩
      simp [roomOccupied])

/-- The state with one connection entry overwritten, as
`activeConnections.set` leaves it. -/
def setConn (s : ServerState) (id : Nat) (c : Connection) : ServerState :=
  { s with conns := Function.update s.conns id (some c) }

/-- A valid setupProfile on an authenticated connection stores the
trimmed display name together with the anonymous id of the connection and
refreshes `lastActivity`. -/
lemma setupProfileHandler_valid (s : ServerState) (id : Nat)
    (conn : Connection) (name : String) (now : Nat)
    (hc : s.conns id = some conn) (ha : conn.isAuthenticated = true)
    (hne : jsTrim name ≠ "") (hlen : (jsTrim name).length ≤ 50) :
    setupProfileHandler s id (some name) now =
      (setConn s id { conn with
          profile := some { displayName := jsTrim name,
                            anonymousId := conn.anonymousId },
          lastActivity := now },
       [(Target.toSender, OutEvent.profileSetupComplete true
          { displayName := jsTrim name,
            anonymousId := conn.anonymousId })]) := by
  simp only [setupProfileHandler, hc, ha, Bool.not_true, Bool.false_eq_true,
    if_false, setConn]
  rw [if_neg (by push_neg; exact ⟨hne, by omega⟩)]

/-- C8: setupProfile is rejected with NOT_AUTHENTICATED when the sender
is unknown or unauthenticated; rejected with the profile-validation error
when the trimmed display name is empty or longer than 50 characters;
otherwise it stores the trimmed profile (a 50-character name is accepted)
and refreshes `lastActivity`; and a second valid invocation leaves
exactly the second profile in effect. -/
theorem setupProfile_validation (s : ServerState) (id : Nat) (now : Nat) :
    (s.conns id = none → ∀ d,
      setupProfileHandler s id d now =
        (s, [(Target.toSender, OutEvent.errorEvt "NOT_AUTHENTICATED")])) ∧
    (∀ conn, s.conns id = some conn → conn.isAuthenticated = false → ∀ d,
      setupProfileHandler s id d now =
        (s, [(Target.toSender, OutEvent.errorEvt "NOT_AUTHENTICATED")])) ∧
    (∀ conn, s.conns id = some conn → conn.isAuthenticated = true →
      ∀ name, (jsTrim name = "" ∨ 50 < (jsTrim name).length) →
      setupProfileHandler s id (some name) now =
        (s, [(Target.toSender,
              OutEvent.profileSetupFailed "Invalid display name")])) ∧
    (∀ conn, s.conns id = some conn → conn.isAuthenticated = true →
      ∀ name, jsTrim name ≠ "" → (jsTrim name).length ≤ 50 →
      setupProfileHandler s id (some name) now =
        (setConn s id { conn with
            profile := some { displayName := jsTrim name,
                              anonymousId := conn.anonymousId },
            lastActivity := now },
         [(Target.toSender, OutEvent.profileSetupComplete true
            { displayName := jsTrim name,
              anonymousId := conn.anonymousId })])) ∧
    (∀ conn, s.conns id = some conn → conn.isAuthenticated = true →
      ∀ n1 n2 t1 t2, jsTrim n1 ≠ "" → (jsTrim n1).length ≤ 50 →
      jsTrim n2 ≠ "" → (jsTrim n2).length ≤ 50 →
      ((setupProfileHandler (setupProfileHandler s id (some n1) t1).1
          id (some n2) t2).1.conns id) =
        some { conn with
          profile := some { displayName := jsTrim n2,
                            anonymousId := conn.anonymousId },
          lastActivity := t2 }) := by
  refine ⟨?_, ?_, ?_, ?_, ?_⟩
  · intro h d
    simp [setupProfileHandler, h]
  · intro conn hc hna d
    simp [setupProfileHandler, hc, hna]
  · intro conn hc ha name hbad
    simp only [setupProfileHandler, hc, ha, Bool.not_true,
      Bool.false_eq_true, if_false]
    rw [if_pos hbad]
  · intro conn hc ha name hne hlen
    exact setupProfileHandler_valid s id conn name now hc ha hne hlen
  · intro conn hc ha n1 n2 t1 t2 hne1 hlen1 hne2 hlen2
    have h1a : (jsTrim n1 = "") = False := eq_false hne1
    have h1b : (50 < (jsTrim n1).length) = False := eq_false (by omega)
    have h2a : (jsTrim n2 = "") = False := eq_false hne2
    have h2b : (50 < (jsTrim n2).length) = False := eq_false (by omega)
    simp [setupProfileHandler, hc, ha, h1a, h1b, h2a, h2b,
      Function.update_same]

/-- A display name of exactly 50 characters. -/
def name50 : String := String.mk (List.replicate 50 'a')

/-- A display name of 51 characters. -/
def name51 : String := String.mk (List.replicate 51 'a')

/-- Witness for C8: on the reachable two-participant state, socket 0 has
its 51-character name rejected, its 50-character name accepted, and a
second valid name overwrites the first. -/
theorem setupProfile_validation_witness :
    (setupProfileHandler twoInRoomState 0 (some name51) 6 =
      (twoInRoomState, [(Target.toSender,
        OutEvent.profileSetupFailed "Invalid display name")])) ∧
    (setupProfileHandler twoInRoomState 0 (some name50) 6 =
      (setConn twoInRoomState 0 { connZero with
          profile := some { displayName := jsTrim name50,
                            anonymousId := 7 },
          lastActivity := 6 },
       [(Target.toSender, OutEvent.profileSetupComplete true
          { displayName := jsTrim name50, anonymousId := 7 })])) ∧
    ((setupProfileHandler (setupProfileHandler twoInRoomState 0
        (some "Alice") 6).1 0 (some "Bob") 7).1.conns 0 =
      some { connZero with
        profile := some { displayName := jsTrim "Bob", anonymousId := 7 },
        lastActivity := 7 }) := by
  have h := setupProfile_validation twoInRoomState 0 6
  refine ⟨?_, ?_, ?_⟩
  · exact h.2.2.1 connZero rfl rfl name51 (Or.inr (by decide))
  · exact h.2.2.2.1 connZero rfl rfl name50 (by decide) (by decide)
  · exact (setupProfile_validation twoInRoomState 0 7).2.2.2.2 connZero rfl
      rfl "Alice" "Bob" 6 7 (by decide) (by decide) (by decide) (by decide)

/-- C9 (counterexample): an authenticate event whose socket id is not in
the connection registry leaves the state unchanged, yet the caller still
receives the `authenticated` acknowledgement with `success: true` — not a
distinct error. -/
theorem authenticate_unknown_still_acks_success :
    authenticateHandler initState 0 5 =
      (initState, [(Target.toSender, OutEvent.authenticated true)]) := rfl

/-- C9 (amended): authenticate with an unknown socket id is a no-op on
registry state, but the caller is still sent the `authenticated` success
acknowledgement rather than a distinct error; when the id is present the
handler sets `isAuthenticated` and refreshes `lastActivity`, emitting the
same acknowledgement. -/
theorem authenticate_noop_on_unknown (s : ServerState) (id now : Nat) :
    (s.conns id = none →
      authenticateHandler s id now =
        (s, [(Target.toSender, OutEvent.authenticated true)])) ∧
    (∀ conn, s.conns id = some conn →
      authenticateHandler s id now =
        (setConn s id { conn with
            isAuthenticated := true, lastActivity := now },
         [(Target.toSender, OutEvent.authenticated true)])) := by
  constructor
  · intro h
    simp [authenticateHandler, h]
  · intro conn h
    simp [authenticateHandler, setConn, h]

/-- The registry entry created by `MembershipEvent.connect 7 0`. -/
def connFresh : Connection :=
  { anonymousId := 7, connectedAt := 0, lastActivity := 0,
    isAuthenticated := false, rooms := ∅, profile := none }

/-- Witness for C9: id 3 is unknown in the initial state (no-op plus
success acknowledgement); id 0 is known in a one-connection state and
gets authenticated with `lastActivity` refreshed to 5. -/
theorem authenticate_noop_on_unknown_witness :
    (authenticateHandler initState 3 5 =
      (initState, [(Target.toSender, OutEvent.authenticated true)])) ∧
    ((authenticateHandler (runMembership [MembershipEvent.connect 7 0])
        0 5).1.conns 0 =
      some { connFresh with
             isAuthenticated := true, lastActivity := 5 }) := by
  refine ⟨(authenticate_noop_on_unknown initState 3 5).1 rfl, ?_⟩
  rw [(authenticate_noop_on_unknown
    (runMembership [MembershipEvent.connect 7 0]) 0 5).2 connFresh rfl]
  simp [setConn, Function.update_same]

/-- C10: a shareFile from an authenticated room participant whose
metadata object lacks a size field passes the size check — the file is
relayed to the other members and the sender receives the success
acknowledgement; the file-too-large branch fires exactly when a numeric
size strictly above 10*1024*1024 is present. -/
theorem shareFile_missing_size_not_rejected (s : ServerState) (id : Nat)
    (conn : Connection) (rid : String) (room : Room) (ef : JsField)
    (fid : String) (now : Nat)
    (hc : s.conns id = some conn) (hauth : conn.isAuthenticated = true)
    (hr : s.rooms rid = some room) (hm : id ∈ room.participants)
    (hef : jsTruthy ef = true) (hfid : fid ≠ "") :
    ((shareFileHandler s id rid (some ef) (some { size := none })
        (some fid) now).2 =
      [(Target.toRoomOthers rid,
        OutEvent.newFile fid rid (senderName conn) ef none true now),
       (Target.toSender, OutEvent.fileShared fid true)]) ∧
    (∀ meta : FileMetadata, sizeExceedsCap meta = true ↔
      ∃ n, meta.size = some n ∧ 10 * 1024 * 1024 < n) := by
  constructor
  · simp [shareFileHandler, hc, hauth, hr, hm, hef, hfid, sizeExceedsCap]
  · intro meta
    cases hms : meta.size with
    | none => simp [sizeExceedsCap, hms]
    | some n => simp [sizeExceedsCap, hms]

/-- Witness for C10: socket 0 shares a file without a metadata size in
room "R"; the relay and the success acknowledgement are emitted, and the
size predicate is false for the sizeless metadata. -/
theorem shareFile_missing_size_not_rejected_witness :
    ((shareFileHandler twoInRoomState 0 "R" (some (JsField.arr [2]))
        (some { size := none }) (some "f2") 6).2 =
      [(Target.toRoomOthers "R",
        OutEvent.newFile "f2" "R" "Anonymous" (JsField.arr [2]) none
          true 6),
       (Target.toSender, OutEvent.fileShared "f2" true)]) ∧
    (sizeExceedsCap { size := none } = false) := by
  have h := shareFile_missing_size_not_rejected twoInRoomState 0 connZero
    "R" roomR (JsField.arr [2]) "f2" 6 rfl rfl rfl (by decide) rfl
    (by decide)
  exact ⟨h.1, rfl⟩

end SecureChat
